/-
  Verification development for the shock-tube matching solver of
  demo_ShockTube.py (SDToolbox, vendored under src/RDE/data/SDToolbox).

  The script is embedded shallowly: the thermodynamic engine (Cantera and
  the sdtoolbox post-shock / CJ routines) is an opaque oracle supplying gas
  states, and the scipy numerics (pchip interpolation, fminbound) are an
  opaque numerics collaborator.  All machine-float arithmetic is modelled
  over the rationals.
-/
import Mathlib

namespace ShockTube

/-- Composition labels (the Cantera mole-fraction strings such as the
driven air mixture or the driver fuel mixture), kept opaque. -/
abbrev Comp := Nat

/-- Snapshot of a gas state as read off a Cantera solution object:
pressure `P`, temperature `T`, `density`, frozen sound speed `a_fr`,
equilibrium sound speed `a_eq`, and specific entropy (entropy_mass). -/
structure GasState where
  P : ℚ
  T : ℚ
  density : ℚ
  a_fr : ℚ
  a_eq : ℚ
  entropy : ℚ
  deriving DecidableEq, Repr

/-- One sample on a family curve: particle velocity `u`, pressure `P`,
density `rho`, temperature `T`, sound speed `a`.  These are exactly the
per-sample quantities the script accumulates in its u/P/rho/T/a lists. -/
structure FlowPoint where
  u : ℚ
  P : ℚ
  rho : ℚ
  T : ℚ
  a : ℚ
  deriving DecidableEq, Repr

/-- The gas-state oracle: the external thermodynamic engine used by the
script (ct.Solution state setting, equilibrate, CJspeed, PostShock_fr,
PostShock_eq, and the SVX entropy-volume state setting). -/
structure Oracle where
  state : ℚ → ℚ → Comp → GasState
  equilibrate_uv : GasState → GasState
  cj_speed : ℚ → ℚ → Comp → ℚ
  post_shock_fr : ℚ → ℚ → ℚ → Comp → GasState
  post_shock_eq : ℚ → ℚ → ℚ → Comp → GasState
  sv_state : ℚ → ℚ → Comp → GasState
  equilibrate_sv : GasState → GasState

/-- np.linspace(a, b, num = n): n evenly spaced samples from a to b,
endpoints included.  (For n = 1 the formula collapses to [a], matching
numpy, since the zero numerator kills the division.) -/
def linspace (a b : ℚ) (n : ℕ) : List ℚ :=
  (List.range n).map (fun i : ℕ => a + (b - a) * (i : ℚ) / ((n : ℚ) - 1))

/-- Driven-side evaluation mode (CASE_DRIVEN in the script). -/
inductive DrivenMode where
  | frozen
  | equilibrium
  deriving DecidableEq, Repr

/-- Dispatch of the post-shock oracle call on the driven mode, as in the
if/elif over CASE_DRIVEN in the shock sweep. -/
def postShock (orc : Oracle) : DrivenMode → ℚ → ℚ → ℚ → Comp → GasState
  | DrivenMode.frozen => orc.post_shock_fr
  | DrivenMode.equilibrium => orc.post_shock_eq

/-- One iteration of the shock sweep: the post-shock state at speed `U`,
the lab-frame particle velocity u2 = U - rho1*U/rho2, and the recorded
fields (a2 is the frozen sound speed of the shocked gas, as in the code). -/
def shockPoint (orc : Oracle) (mode : DrivenMode) (P1 T1 : ℚ) (q1 : Comp)
    (rho1 : ℚ) (U : ℚ) : FlowPoint :=
  let st := postShock orc mode U P1 T1 q1
  { u := U - rho1 * U / st.density
    P := st.P
    rho := st.density
    T := st.T
    a := st.a_fr }

/-- The shock-family curve: one FlowPoint per speed in
linspace(Ustart, Ustop, nsteps), in sweep order. -/
def shockFamilyCurve (orc : Oracle) (mode : DrivenMode) (P1 T1 : ℚ) (q1 : Comp)
    (rho1 Ua Ub : ℚ) (n : ℕ) : List FlowPoint :=
  (linspace Ua Ub n).map (shockPoint orc mode P1 T1 q1 rho1)

/-- The shock family together with the originating shock speed of each
point (the script's parallel Us list, consumed by the matcher). -/
def shockFamilyData (orc : Oracle) (mode : DrivenMode) (P1 T1 : ℚ) (q1 : Comp)
    (rho1 Ua Ub : ℚ) (n : ℕ) : List (FlowPoint × ℚ) :=
  (linspace Ua Ub n).map (fun U => (shockPoint orc mode P1 T1 q1 rho1 U, U))

/-- Driver physics case (CASE_DRIVER in the script). -/
inductive DriverCase where
  | gas
  | uv
  | cj
  deriving DecidableEq, Repr

/-- Output of the driver-state construction: the driver gas state, its
initial sound speed a3[0], initial particle velocity u3[0], and whether the
expansion is computed in equilibrium mode (EQ_EXP). -/
structure DriverInit where
  gas0 : GasState
  a0 : ℚ
  u0 : ℚ
  eqExp : Bool
  deriving DecidableEq, Repr

/-- The three driver branches of the script.  For the cj case:
rho4 is the fill density, cj the CJ speed, the driver state is the
equilibrium post-shock state at the CJ speed, and u3[0] = w3 - cj_speed
with w3 = cj_speed * rho4 / rho(post-shock state). -/
def driverStateBuilder (orc : Oracle) (cs : DriverCase) (Pf Tf : ℚ) (q4 : Comp) :
    DriverInit :=
  match cs with
  | DriverCase.gas =>
      let g := orc.state Tf Pf q4
      { gas0 := g, a0 := g.a_fr, u0 := 0, eqExp := false }
  | DriverCase.uv =>
      let g := orc.equilibrate_uv (orc.state Tf Pf q4)
      { gas0 := g, a0 := g.a_eq, u0 := 0, eqExp := true }
  | DriverCase.cj =>
      let fill := orc.state Tf Pf q4
      let cj := orc.cj_speed Pf Tf q4
      let g := orc.post_shock_eq cj Pf Tf q4
      let w3 := cj * fill.density / g.density
      { gas0 := g, a0 := g.a_eq, u0 := w3 - cj, eqExp := true }

/-- Modelled from the spec: the spec's own formula for the CJ-driver
initial velocity, transcribed verbatim for comparison with the code:
u0 = cj_speed - (cj_speed * rho_fill / rho(GasState0)). -/
def specCJDriverU0 (orc : Oracle) (Pf Tf : ℚ) (q4 : Comp) : ℚ :=
  let cj := orc.cj_speed Pf Tf q4
  let g := orc.post_shock_eq cj Pf Tf q4
  cj - cj * (orc.state Tf Pf q4).density / g.density

/-- The gas state obtained inside the expansion loop: SVX is set to
(entropy S, volume v, unchanged composition) and, in equilibrium mode,
the gas is additionally equilibrated at constant S and v. -/
def svGas (orc : Oracle) (e : Bool) (S v : ℚ) (q : Comp) : GasState :=
  if e then orc.equilibrate_sv (orc.sv_state S v q) else orc.sv_state S v q

/-- The sound speed recorded in the expansion loop: equilibrium sound
speed in equilibrium mode, frozen sound speed otherwise. -/
def svSound (orc : Oracle) (e : Bool) (S v : ℚ) (q : Comp) : ℚ :=
  if e then (svGas orc e S v q).a_eq else (svGas orc e S v q).a_fr

/-- One iteration of the expansion while-loop: grow the specific volume by
the fixed factor 1.01, query the oracle at entropy S and the new volume,
and apply the trapezoidal Riemann-invariant update to the velocity.
Returns the new volume together with the appended FlowPoint. -/
def expansionStep (orc : Oracle) (e : Bool) (S : ℚ) (q : Comp) (v : ℚ)
    (last : FlowPoint) : ℚ × FlowPoint :=
  let v2 := v * (101 / 100)
  let g := svGas orc e S v2 q
  let a2 := svSound orc e S v2 q
  (v2,
    { u := last.u - (1 / 2) * (g.P - last.P) *
          (1 / (g.density * a2) + 1 / (last.rho * last.a))
      P := g.P
      rho := g.density
      T := g.T
      a := a2 })

/-- Fuel-indexed unfolding of the while-loop `while u3[-1] < u2[-1]`.
Given the current volume and the last appended point, it returns the list
of points appended by the remaining iterations; `none` records that the
loop condition was still true when the fuel ran out, i.e. that the source
loop (which has no cap) has not terminated within that many iterations. -/
def marchTail (orc : Oracle) (e : Bool) (S : ℚ) (q : Comp) (uT : ℚ) :
    ℕ → ℚ → FlowPoint → Option (List FlowPoint)
  | 0, _, last => if uT ≤ last.u then some [] else none
  | fuel + 1, v, last =>
      if uT ≤ last.u then some []
      else
        let s := expansionStep orc e S q v last
        (marchTail orc e S q uT fuel s.1 s.2).map (fun t => s.2 :: t)

/-- The expansion march: starting volume vv = 1/rho3[0], initial point
u3[0]/P3[0]/rho3[0]/T3[0]/a3[0], looping while the last particle velocity
is below the target `uT` (the script uses u2[-1], the last shock-family
particle velocity). -/
def expansionMarch (orc : Oracle) (e : Bool) (S : ℚ) (q : Comp) (uT : ℚ)
    (fuel : ℕ) (init : FlowPoint) : Option (List FlowPoint) :=
  (marchTail orc e S q uT fuel (1 / init.rho) init).map (fun t => init :: t)

/-- A list of FlowPoints is a step chain for starting volume v when every
point after the first is produced from its predecessor by `expansionStep`,
with the volume growing by the fixed factor 1.01 at each step. -/
def isStepChain (orc : Oracle) (e : Bool) (S : ℚ) (q : Comp) :
    ℚ → List FlowPoint → Prop
  | _, [] => True
  | _, [_] => True
  | v, p :: p2 :: rest =>
      p2 = (expansionStep orc e S q v p).2 ∧
        isStepChain orc e S q (v * (101 / 100)) (p2 :: rest)

/-- The scipy collaborators of the matcher: the pchip interpolant factory
and the bounded scalar minimizer fminbound. -/
structure Numerics where
  pchip : List (ℚ × ℚ) → ℚ → ℚ
  fminbound : (ℚ → ℚ) → ℚ → ℚ → ℚ

/-- Ordering of flow points by pressure, the key of the argsort over P3. -/
def leByP (p q : FlowPoint) : Prop := p.P ≤ q.P

instance : DecidableRel leByP :=
  fun p q => inferInstanceAs (Decidable (p.P ≤ q.P))

/-- Ordering of (point, shock speed) pairs by the point's pressure, the
key of the argsort over P2 that is applied to every state-2 array. -/
def pairLeByP (p q : FlowPoint × ℚ) : Prop := p.1.P ≤ q.1.P

instance : DecidableRel pairLeByP :=
  fun p q => inferInstanceAs (Decidable (p.1.P ≤ q.1.P))

/-- Sort a family curve by increasing pressure (P3.argsort). -/
def sortByP (l : List FlowPoint) : List FlowPoint :=
  List.insertionSort leByP l

/-- Sort shock data by increasing pressure (P2.argsort applied jointly to
the state-2 arrays and Us). -/
def sortPairsByP (l : List (FlowPoint × ℚ)) : List (FlowPoint × ℚ) :=
  List.insertionSort pairLeByP l

/-- Lower end of the minimizer bracket: pmin = 1.01. -/
def bracketLo : ℚ := 101 / 100

/-- Upper end of the minimizer bracket: pmax = max(P2)/P1. -/
def bracketHi (shock : List (FlowPoint × ℚ)) (P1 : ℚ) : ℚ :=
  ((shock.map (fun pr => pr.1.P)).max?.getD 0) / P1

/-- A pchip interpolant of a state-2 quantity against P2/P1, built on the
pressure-sorted grid. -/
def shockInterp (nm : Numerics) (shock : List (FlowPoint × ℚ)) (P1 : ℚ)
    (f : FlowPoint × ℚ → ℚ) : ℚ → ℚ :=
  nm.pchip ((sortPairsByP shock).map (fun pr => (pr.1.P / P1, f pr)))

/-- A pchip interpolant of a state-3 quantity against P3/P1, built on the
pressure-sorted grid. -/
def expInterp (nm : Numerics) (expn : List FlowPoint) (P1 : ℚ)
    (f : FlowPoint → ℚ) : ℚ → ℚ :=
  nm.pchip ((sortByP expn).map (fun p => (p.P / P1, f p)))

/-- The intersection objective: fun x = (u2(x) - u3(x))^2. -/
def matchResidual (nm : Numerics) (shock : List (FlowPoint × ℚ))
    (expn : List FlowPoint) (P1 : ℚ) : ℚ → ℚ :=
  fun x =>
    (shockInterp nm shock P1 (fun pr => pr.1.u) x -
        expInterp nm expn P1 FlowPoint.u x) ^ 2

/-- The matched output assembled by the script: contact pressure ratio,
shock speed and Mach number, and the interpolated state-2 and state-3
quantities at the contact pressure. -/
structure MatchResult where
  pRatio : ℚ
  Ushock : ℚ
  Mshock : ℚ
  u2c : ℚ
  T2c : ℚ
  a2c : ℚ
  rho2c : ℚ
  M2c : ℚ
  u3c : ℚ
  T3c : ℚ
  a3c : ℚ
  rho3c : ℚ
  deriving DecidableEq, Repr

/-- The matcher exactly as in the script: fminbound on the squared
velocity difference over [1.01, max(P2)/P1], then unconditional
evaluation of every interpolant at the returned minimizer.  There is no
residual-tolerance check and no bracket-endpoint check: a result is
always produced. -/
def curveMatcher (nm : Numerics) (shock : List (FlowPoint × ℚ))
    (expn : List FlowPoint) (P1 a1 : ℚ) : MatchResult :=
  let Pc := nm.fminbound (matchResidual nm shock expn P1) bracketLo
      (bracketHi shock P1)
  let Ush := shockInterp nm shock P1 (fun pr => pr.2) Pc
  let u2c := shockInterp nm shock P1 (fun pr => pr.1.u) Pc
  let a2c := shockInterp nm shock P1 (fun pr => pr.1.a) Pc
  let u3c := expInterp nm expn P1 FlowPoint.u Pc
  let a3c := expInterp nm expn P1 FlowPoint.a Pc
  { pRatio := Pc
    Ushock := Ush
    Mshock := Ush / a1
    u2c := u2c
    T2c := shockInterp nm shock P1 (fun pr => pr.1.T) Pc
    a2c := a2c
    rho2c := shockInterp nm shock P1 (fun pr => pr.1.rho) Pc
    M2c := u2c / a2c
    u3c := u3c
    T3c := expInterp nm expn P1 FlowPoint.T Pc
    a3c := a3c
    rho3c := expInterp nm expn P1 FlowPoint.rho Pc }

/-- The impedance ratio Z = (rho2 a2)/(rho3 a3) derived from the matched
states, the reporter's only computed quantity. -/
def stateReporterZ (m : MatchResult) : ℚ :=
  m.rho2c * m.a2c / (m.rho3c * m.a3c)

/-- Run configuration: the script's constants made explicit (driven fill
state, driver case and fill state, compositions). -/
structure Config where
  caseDriver : DriverCase
  caseDriven : DrivenMode
  P1 : ℚ
  T1 : ℚ
  q1 : Comp
  Pd : ℚ
  Td : ℚ
  q4 : Comp

/-- Driver fill pressure and temperature per case: the gas driver uses its
own (P_driver, T_driver); the uv and cj drivers fill at (P1, T1), as the
script hard-codes P_driver_fill = P1 and T_driver_fill = T1. -/
def driverFill (cfg : Config) : ℚ × ℚ :=
  match cfg.caseDriver with
  | DriverCase.gas => (cfg.Pd, cfg.Td)
  | DriverCase.uv => (cfg.P1, cfg.T1)
  | DriverCase.cj => (cfg.P1, cfg.T1)

/-- The whole pipeline of the script, from the driven initial state to the
matched result and the impedance ratio: initial state, shock sweep with
Ustart = 1.01 a1, Ustop = 8 a1, nsteps = int((Ustop-Ustart)/25), driver
construction, expansion march towards u2[-1], and the matcher.  `none`
records that the (uncapped) expansion loop did not terminate within the
given fuel. -/
def runShockTube (orc : Oracle) (nm : Numerics) (cfg : Config) (fuel : ℕ) :
    Option (MatchResult × ℚ) :=
  let gas1 := orc.state cfg.T1 cfg.P1 cfg.q1
  let rho1 := gas1.density
  let a1 := gas1.a_fr
  let Ustart := a1 * (101 / 100)
  let Ustop := 8 * a1
  let nsteps := (⌊(Ustop - Ustart) / 25⌋).toNat
  let shock := shockFamilyData orc cfg.caseDriven cfg.P1 cfg.T1 cfg.q1 rho1
      Ustart Ustop nsteps
  let fill := driverFill cfg
  let d := driverStateBuilder orc cfg.caseDriver fill.1 fill.2 cfg.q4
  let init : FlowPoint :=
    { u := d.u0, P := d.gas0.P, rho := d.gas0.density, T := d.gas0.T, a := d.a0 }
  let uT := ((shock.getLast?).map (fun pr => pr.1.u)).getD 0
  (expansionMarch orc d.eqExp d.gas0.entropy cfg.q4 uT fuel init).map
    (fun l =>
      let m := curveMatcher nm shock l cfg.P1 a1
      (m, stateReporterZ m))

/-- Two sequential runs of the full pipeline on the same inputs and the
same oracle and numerics. -/
def runShockTubeTwice (orc : Oracle) (nm : Numerics) (cfg : Config)
    (fuel : ℕ) : Option (MatchResult × ℚ) × Option (MatchResult × ℚ) :=
  (runShockTube orc nm cfg fuel, runShockTube orc nm cfg fuel)

/-- A deterministic stub oracle returning the same gas state from every
call, the baseline for the concrete test oracles below. -/
def constOracle (g : GasState) : Oracle :=
  { state := fun _ _ _ => g
    equilibrate_uv := fun x => x
    cj_speed := fun _ _ _ => 0
    post_shock_fr := fun _ _ _ _ => g
    post_shock_eq := fun _ _ _ _ => g
    sv_state := fun _ _ _ => g
    equilibrate_sv := fun x => x }

/-- Fill-state stub for the CJ driver tests: density 1. -/
def cexFill : GasState := ⟨1, 1, 1, 1, 1, 1⟩

/-- Post-shock stub for the CJ driver tests: density 2 (compression). -/
def cexPost : GasState := ⟨1, 1, 2, 1, 1, 1⟩

/-- Deterministic stub CJ oracle: cj_speed = 2, fill density 1,
equilibrium post-shock density 2. -/
def cexOracle : Oracle :=
  { constOracle cexFill with
      cj_speed := fun _ _ _ => 2
      post_shock_eq := fun _ _ _ _ => cexPost }

/-- Stub oracle whose post-shock pressure decreases with shock speed,
exhibiting a shock sweep output that is ordered by U but not by P. -/
def decOracle : Oracle :=
  { constOracle ⟨1, 1, 1, 1, 1, 1⟩ with
      post_shock_fr := fun U _ _ _ => ⟨-U, 1, 1, 1, 1, 1⟩ }

/-- Degenerate gas state for the nontermination example: every isentropic
step returns pressure 1 and density 1 again, so the trapezoidal update
leaves the velocity unchanged. -/
def stuckGas : GasState := ⟨1, 1, 1, 1, 1, 1⟩

/-- Oracle realizing the degenerate equation of state. -/
def stuckOracle : Oracle := constOracle stuckGas

/-- Initial driver point for the nontermination example: velocity 0,
matching the stuck gas state. -/
def stuckInit : FlowPoint := ⟨0, 1, 1, 1, 1⟩

/-- Gas state at pressure 0 used by the one-step expansion example. -/
def jumpGas : GasState := ⟨0, 1, 1, 1, 1, 1⟩

/-- Oracle whose isentropic states sit at pressure 0, so one trapezoidal
step raises the velocity from 0 to 2. -/
def jumpOracle : Oracle := constOracle jumpGas

/-- Initial driver point for the one-step expansion example. -/
def jumpInit : FlowPoint := ⟨0, 2, 1, 1, 1⟩

/-- Interpolant stub: the value of the first grid point, ignoring the
query position. -/
def headVal (pts : List (ℚ × ℚ)) (_ : ℚ) : ℚ := (pts.head?.getD (0, 0)).2

/-- Numerics stub: first-grid-value interpolant and a minimizer returning
the bracket midpoint. -/
def stubNm : Numerics :=
  { pchip := headVal, fminbound := fun _ a b => (a + b) / 2 }

/-- Numerics stub whose minimizer lands exactly on the lower bracket
endpoint. -/
def loNm : Numerics :=
  { pchip := headVal, fminbound := fun _ a _ => a }

/-- Shock-family data whose two velocity samples are both 0 (so the two
families never cross): pressures 2 and 3, speeds 5 and 6. -/
def shockC3 : List (FlowPoint × ℚ) := [(⟨0, 2, 1, 1, 1⟩, 5), (⟨0, 3, 1, 1, 1⟩, 6)]

/-- Expansion-family curve whose velocity samples are both 100. -/
def expC3 : List FlowPoint := [⟨100, 2, 1, 1, 1⟩, ⟨100, 1, 1, 1, 1⟩]

/-- Shock-family data whose sampled pressures all lie at or above 2
(with P1 = 1, the sampled pressure-ratio range starts at 2). -/
def shockC4 : List (FlowPoint × ℚ) := [(⟨0, 2, 1, 1, 1⟩, 5), (⟨0, 4, 1, 1, 1⟩, 6)]

/-- Expansion-family curve for the endpoint example. -/
def expC4 : List FlowPoint := [⟨0, 3, 1, 1, 1⟩, ⟨1, 1, 1, 1, 1⟩]

/-- Driven-section sentinel state: pressure 1, temperature 300,
density 1, frozen sound speed 10, entropy 5. -/
def sentGas1 : GasState := ⟨1, 300, 1, 10, 10, 5⟩

/-- Post-shock sentinel state: pressure 9, temperature 2, density 2,
sound speeds 3. -/
def sentGas2 : GasState := ⟨9, 2, 2, 3, 3, 5⟩

/-- Isentrope sentinel state at large negative pressure, driving the
expansion velocity past the target in a single step. -/
def sentGas3 : GasState := ⟨-1000, 7, 1, 1, 1, 5⟩

/-- Sentinel oracle for the input-validation experiment: every produced
value is tagged by one of the sentinel states, so oracle invocations are
visible in the pipeline output. -/
def sentOracle : Oracle :=
  { constOracle sentGas1 with
      post_shock_fr := fun _ _ _ _ => sentGas2
      post_shock_eq := fun _ _ _ _ => sentGas2
      sv_state := fun _ _ _ => sentGas3 }

/-- A non-physical configuration: driver fill pressure equal to the driven
pressure (1 = 1) and a negative driver fill temperature. -/
def badCfg : Config :=
  { caseDriver := DriverCase.gas
    caseDriven := DrivenMode.frozen
    P1 := 1
    T1 := 300
    q1 := 0
    Pd := 1
    Td := -5
    q4 := 1 }

theorem linspace_length (a b : ℚ) (n : ℕ) : (linspace a b n).length = n := by
  unfold linspace
  rw [List.length_map, List.length_range]

theorem linspace_pairwise (a b : ℚ) (n : ℕ) (hab : a < b) :
    (linspace a b n).Pairwise (· < ·) := by
  unfold linspace
  rw [List.pairwise_map, List.pairwise_iff_get]
  intro i j hij
  simp only [List.get_eq_getElem, List.getElem_range]
  have hijn : (i : ℕ) < (j : ℕ) := hij
  have hj : (j : ℕ) < n := by simpa using j.isLt
  have hn2 : 2 ≤ n := by omega
  have hc : (0 : ℚ) < (n : ℚ) - 1 := by
    have : (2 : ℚ) ≤ (n : ℚ) := by exact_mod_cast hn2
    linarith
  have hba : (0 : ℚ) < b - a := by linarith
  apply add_lt_add_left
  rw [div_lt_div_iff_of_pos_right hc]
  exact mul_lt_mul_of_pos_left (by exact_mod_cast hijn) hba

theorem marchTail_exit (orc : Oracle) (e : Bool) (S : ℚ) (q : Comp) (uT : ℚ) :
    ∀ (fuel : ℕ) (v : ℚ) (last : FlowPoint) (t : List FlowPoint),
      marchTail orc e S q uT fuel v last = some t →
      ∃ p, (last :: t).getLast? = some p ∧ uT ≤ p.u := by
  intro fuel
  induction fuel with
  | zero =>
      intro v last t h
      simp only [marchTail] at h
      by_cases hc : uT ≤ last.u
      · rw [if_pos hc] at h
        have := Option.some_inj.mp h
        subst this
        exact ⟨last, rfl, hc⟩
      · rw [if_neg hc] at h
        cases h
  | succ n ih =>
      intro v last t h
      simp only [marchTail] at h
      by_cases hc : uT ≤ last.u
      · rw [if_pos hc] at h
        have := Option.some_inj.mp h
        subst this
        exact ⟨last, rfl, hc⟩
      · rw [if_neg hc] at h
        obtain ⟨t', ht', rfl⟩ := Option.map_eq_some'.mp h
        obtain ⟨p, hp, hup⟩ := ih _ _ _ ht'
        exact ⟨p, by rw [List.getLast?_cons_cons]; exact hp, hup⟩

theorem marchTail_progress (orc : Oracle) (e : Bool) (S : ℚ) (q : Comp) (uT : ℚ)
    (fuel : ℕ) (v : ℚ) (last : FlowPoint) (t : List FlowPoint)
    (h : marchTail orc e S q uT fuel v last = some t) (hlt : last.u < uT) :
    t ≠ [] := by
  cases fuel with
  | zero =>
      simp only [marchTail] at h
      rw [if_neg (not_le.mpr hlt)] at h
      cases h
  | succ n =>
      simp only [marchTail] at h
      rw [if_neg (not_le.mpr hlt)] at h
      obtain ⟨t', ht', rfl⟩ := Option.map_eq_some'.mp h
      simp

theorem marchTail_chain (orc : Oracle) (e : Bool) (S : ℚ) (q : Comp) (uT : ℚ) :
    ∀ (fuel : ℕ) (v : ℚ) (last : FlowPoint) (t : List FlowPoint),
      marchTail orc e S q uT fuel v last = some t →
      isStepChain orc e S q v (last :: t) := by
  intro fuel
  induction fuel with
  | zero =>
      intro v last t h
      simp only [marchTail] at h
      by_cases hc : uT ≤ last.u
      · rw [if_pos hc] at h
        have := Option.some_inj.mp h
        subst this
        simp [isStepChain]
      · rw [if_neg hc] at h
        cases h
  | succ n ih =>
      intro v last t h
      simp only [marchTail] at h
      by_cases hc : uT ≤ last.u
      · rw [if_pos hc] at h
        have := Option.some_inj.mp h
        subst this
        simp [isStepChain]
      · rw [if_neg hc] at h
        obtain ⟨t', ht', rfl⟩ := Option.map_eq_some'.mp h
        have hch := ih _ _ _ ht'
        exact ⟨rfl, hch⟩

theorem stuck_step (v : ℚ) :
    (expansionStep stuckOracle false 1 0 v stuckInit).2 = stuckInit := by
  simp [expansionStep, svGas, svSound, stuckOracle, constOracle, stuckGas,
    stuckInit]

theorem stuck_marchTail : ∀ (fuel : ℕ) (v : ℚ),
    marchTail stuckOracle false 1 0 1 fuel v stuckInit = none := by
  intro fuel
  induction fuel with
  | zero =>
      intro v
      simp [marchTail, stuckInit]
  | succ n ih =>
      intro v
      simp only [marchTail]
      rw [if_neg (by norm_num [stuckInit])]
      rw [stuck_step, ih]
      rfl

/-- Claim C1 (status: bug in the code, theorem evaluates the code at the
failing input): the expansion while-loop of the script has no iteration
cap and no IterationBudgetExceeded failure.  With a degenerate oracle
whose isentropic states keep pressure constant, the velocity never rises
above the target, and the loop does not terminate within any number of
iterations: the fuel-indexed embedding returns `none` for every fuel. -/
theorem c1_expansion_loop_has_no_cap :
    stuckInit.u < 1 ∧
      ∀ fuel : ℕ, expansionMarch stuckOracle false 1 0 1 fuel stuckInit = none := by
  constructor
  · norm_num [stuckInit]
  · intro fuel
    unfold expansionMarch
    rw [stuck_marchTail]
    rfl

/-- Claim C2 (counterexample): the spec's CJ-driver formula
u0 = cj_speed - cj_speed*rho_fill/rho(GasState0) disagrees with the code.
With the stub CJ oracle (cj_speed = 2, fill density 1, post-shock density
2) the code produces u0 = -1 while the spec's formula gives +1. -/
theorem c2_spec_formula_counterexample :
    (driverStateBuilder cexOracle DriverCase.cj 1 1 0).u0 = -1 ∧
    specCJDriverU0 cexOracle 1 1 0 = 1 ∧
    (driverStateBuilder cexOracle DriverCase.cj 1 1 0).u0 ≠
      specCJDriverU0 cexOracle 1 1 0 := by
  norm_num [driverStateBuilder, specCJDriverU0, cexOracle, constOracle,
    cexFill, cexPost]

/-- Claim C2 (amended): for every oracle and fill state, the CJ-driver
initial velocity computed by the code is the NEGATIVE of the spec's
expression: u0 = cj_speed*rho_fill/rho(GasState0) - cj_speed. -/
theorem c2_cj_driver_velocity_amended (orc : Oracle) (Pf Tf : ℚ) (q4 : Comp) :
    (driverStateBuilder orc DriverCase.cj Pf Tf q4).u0 =
      -(specCJDriverU0 orc Pf Tf q4) := by
  simp only [driverStateBuilder, specCJDriverU0]
  ring

/-- Claim C3 (status: bug in the code, theorem evaluates the code at the
failing input): the matcher never checks the residual against a
tolerance.  With two families whose velocities differ by 100 everywhere,
the squared velocity difference at the returned minimizer is 10000, yet
the matcher still assembles and returns a full MatchResult instead of a
NoIntersectionFound failure. -/
theorem c3_matcher_returns_despite_nonzero_residual :
    matchResidual stubNm shockC3 expC3 1
        ((curveMatcher stubNm shockC3 expC3 1 1).pRatio) = 10000 ∧
    curveMatcher stubNm shockC3 expC3 1 1 =
      { pRatio := 401 / 200, Ushock := 5, Mshock := 5, u2c := 0, T2c := 1,
        a2c := 1, rho2c := 1, M2c := 0, u3c := 100, T3c := 1, a3c := 1,
        rho3c := 1 } := by
  norm_num [curveMatcher, matchResidual, shockInterp, expInterp, sortPairsByP,
    sortByP, List.insertionSort, List.orderedInsert, pairLeByP, leByP, stubNm,
    headVal, shockC3, expC3, bracketLo, bracketHi]

/-- Claim C4 (status: bug in the code, theorem evaluates the code at the
failing input): when the minimizer lands on the lower bracket endpoint
pmin = 1.01, below every sampled shock-curve pressure ratio, the matcher
still returns a MatchResult whose matched pressure lies outside the
sampled range, with no ExtrapolationError path in the code. -/
theorem c4_matcher_returns_endpoint_outside_range :
    (curveMatcher loNm shockC4 expC4 1 1).pRatio = bracketLo ∧
    ∀ pr ∈ shockC4, (curveMatcher loNm shockC4 expC4 1 1).pRatio < pr.1.P / 1 := by
  norm_num [curveMatcher, matchResidual, shockInterp, expInterp, sortPairsByP,
    sortByP, List.insertionSort, List.orderedInsert, pairLeByP, leByP, loNm,
    headVal, shockC4, expC4, bracketLo, bracketHi]

/-- Claim C5: the shock sweep emits exactly one FlowPoint per speed of
linspace(Ustart, Ustop, N), in sweep order; the point at speed U has
u2 = U - rho1*U/rho(state2) and carries state2's pressure, density,
temperature and (frozen) sound speed; the speeds are strictly increasing
when Ustart < Ustop; and the output is not pressure-sorted (witnessed by
an oracle whose post-shock pressure decreases with U). -/
theorem c5_shock_family_curve (orc : Oracle) (mode : DrivenMode) (P1 T1 : ℚ)
    (q1 : Comp) (rho1 Ua Ub : ℚ) (n : ℕ) (hab : Ua < Ub) :
    shockFamilyCurve orc mode P1 T1 q1 rho1 Ua Ub n
        = (linspace Ua Ub n).map (shockPoint orc mode P1 T1 q1 rho1) ∧
    (shockFamilyCurve orc mode P1 T1 q1 rho1 Ua Ub n).length = n ∧
    (∀ U, shockPoint orc mode P1 T1 q1 rho1 U =
        { u := U - rho1 * U / (postShock orc mode U P1 T1 q1).density
          P := (postShock orc mode U P1 T1 q1).P
          rho := (postShock orc mode U P1 T1 q1).density
          T := (postShock orc mode U P1 T1 q1).T
          a := (postShock orc mode U P1 T1 q1).a_fr }) ∧
    (linspace Ua Ub n).Pairwise (· < ·) ∧
    ¬ ((shockFamilyCurve decOracle DrivenMode.frozen 1 1 0 1 1 2 3).map
        FlowPoint.P).Pairwise (· ≤ ·) := by
  refine ⟨rfl, ?_, fun U => rfl, linspace_pairwise Ua Ub n hab, ?_⟩
  · rw [shockFamilyCurve, List.length_map, linspace_length]
  · norm_num [shockFamilyCurve, linspace, shockPoint, decOracle, constOracle,
      postShock, List.range_succ, List.range_zero, List.map_append,
      List.map_cons, List.map_nil, List.pairwise_append, List.pairwise_cons,
      Function.comp]

/-- Witness for C5 at a concrete sweep: three speeds between 1 and 2. -/
theorem c5_shock_family_curve_witness :
    (1 : ℚ) < 2 ∧
      (shockFamilyCurve decOracle DrivenMode.frozen 1 1 0 1 1 2 3).length = 3 :=
  ⟨by norm_num,
    (c5_shock_family_curve decOracle DrivenMode.frozen 1 1 0 1 1 2 3
      (by norm_num)).2.1⟩

/-- Claim C6: on every terminating run, each point of the expansion curve
after the first is obtained from its predecessor by one expansion step:
the specific volume grows by the fixed factor 1.01, the new state is the
oracle state at entropy S and the new volume (equilibrated in equilibrium
mode), and the velocity obeys the trapezoidal recurrence
u[n] = u[n-1] - (1/2)(P[n]-P[n-1])(1/(rho[n] a[n]) + 1/(rho[n-1] a[n-1])). -/
theorem c6_expansion_march_recurrence (orc : Oracle) (e : Bool) (S : ℚ)
    (q : Comp) (uT : ℚ) (fuel : ℕ) (init : FlowPoint) (l : List FlowPoint)
    (h : expansionMarch orc e S q uT fuel init = some l) :
    isStepChain orc e S q (1 / init.rho) l ∧
      ∀ (v : ℚ) (p : FlowPoint),
        (expansionStep orc e S q v p).1 = v * (101 / 100) ∧
        (expansionStep orc e S q v p).2.P = (svGas orc e S (v * (101 / 100)) q).P ∧
        (expansionStep orc e S q v p).2.rho =
          (svGas orc e S (v * (101 / 100)) q).density ∧
        (expansionStep orc e S q v p).2.a = svSound orc e S (v * (101 / 100)) q ∧
        (expansionStep orc e S q v p).2.u =
          p.u - (1 / 2) * ((svGas orc e S (v * (101 / 100)) q).P - p.P) *
            (1 / ((svGas orc e S (v * (101 / 100)) q).density *
                svSound orc e S (v * (101 / 100)) q) +
              1 / (p.rho * p.a)) := by
  obtain ⟨t, ht, rfl⟩ := Option.map_eq_some'.mp h
  exact ⟨marchTail_chain orc e S q uT fuel _ init t ht,
    fun v p => ⟨rfl, rfl, rfl, rfl, rfl⟩⟩

/-- Witness for C6: a concrete one-step march whose two points form a
step chain. -/
theorem c6_expansion_march_recurrence_witness :
    isStepChain jumpOracle false 1 0 (1 / jumpInit.rho)
      [jumpInit, ⟨2, 0, 1, 1, 1⟩] :=
  (c6_expansion_march_recurrence jumpOracle false 1 0 1 3 jumpInit
    [jumpInit, ⟨2, 0, 1, 1, 1⟩]
    (by norm_num [expansionMarch, marchTail, expansionStep, svGas, svSound,
      jumpOracle, constOracle, jumpGas, jumpInit])).1

/-- Claim C7: for the CJ driver, whenever the stubbed CJ speed is positive,
the equilibrium post-shock density is positive and at least the fill
density, the initial driver particle velocity is nonpositive. -/
theorem c7_cj_driver_velocity_nonpositive (orc : Oracle) (Pf Tf : ℚ) (q4 : Comp)
    (hcj : 0 < orc.cj_speed Pf Tf q4)
    (hpos : 0 < (orc.post_shock_eq (orc.cj_speed Pf Tf q4) Pf Tf q4).density)
    (hle : (orc.state Tf Pf q4).density ≤
        (orc.post_shock_eq (orc.cj_speed Pf Tf q4) Pf Tf q4).density) :
    (driverStateBuilder orc DriverCase.cj Pf Tf q4).u0 ≤ 0 := by
  simp only [driverStateBuilder]
  set cj := orc.cj_speed Pf Tf q4
  set r4 := (orc.state Tf Pf q4).density
  set r0 := (orc.post_shock_eq cj Pf Tf q4).density
  have h1 : cj * r4 ≤ cj * r0 := mul_le_mul_of_nonneg_left hle hcj.le
  have h2 : cj * r4 / r0 ≤ cj := by
    rw [div_le_iff₀ hpos]
    linarith
  linarith

/-- Witness for C7 with the deterministic stub CJ oracle. -/
theorem c7_cj_driver_velocity_nonpositive_witness :
    (0 : ℚ) < cexOracle.cj_speed 1 1 0 ∧
    (cexOracle.state 1 1 0).density ≤
      (cexOracle.post_shock_eq (cexOracle.cj_speed 1 1 0) 1 1 0).density ∧
    (driverStateBuilder cexOracle DriverCase.cj 1 1 0).u0 ≤ 0 :=
  ⟨by norm_num [cexOracle, constOracle, cexFill, cexPost],
    by norm_num [cexOracle, constOracle, cexFill, cexPost],
    c7_cj_driver_velocity_nonpositive cexOracle 1 1 0
      (by norm_num [cexOracle, constOracle, cexFill, cexPost])
      (by norm_num [cexOracle, constOracle, cexFill, cexPost])
      (by norm_num [cexOracle, constOracle, cexFill, cexPost])⟩

/-- Claim C8 (status: bug in the code, theorem evaluates the code at the
failing input): the script performs no input validation.  With a driver
fill pressure equal to the driven pressure and a negative driver fill
temperature, the pipeline still runs to completion and its output is
built from oracle-produced sentinel values (post-shock temperature 2,
sound speed 3, density 2; isentrope temperature 7), so oracle functions
are invoked and no InputValidationError exists. -/
theorem c8_no_input_validation :
    badCfg.Pd ≤ badCfg.P1 ∧ badCfg.Td < 0 ∧
    runShockTube sentOracle stubNm badCfg 5 =
      some ({ pRatio := 1001 / 200, Ushock := 101 / 10, Mshock := 101 / 100,
              u2c := 101 / 20, T2c := 2, a2c := 3, rho2c := 2, M2c := 101 / 60,
              u3c := 11011 / 20, T3c := 7, a3c := 1, rho3c := 1 }, 6) := by
  norm_num [runShockTube, badCfg, sentOracle, constOracle, sentGas1, sentGas2,
    sentGas3, shockFamilyData, linspace, shockPoint, postShock, driverFill,
    driverStateBuilder, expansionMarch, marchTail, expansionStep, svGas,
    svSound, curveMatcher, matchResidual, shockInterp, expInterp, sortPairsByP,
    sortByP, List.insertionSort, List.orderedInsert, pairLeByP, leByP, stubNm,
    headVal, bracketLo, bracketHi, stateReporterZ,
    show Int.toNat 2 = 2 from rfl,
    List.range_succ, List.range_zero, List.map_append, List.map_cons,
    List.map_nil, List.getLast?_concat, List.getLast?_singleton,
    Function.comp]

/-- Claim C9: the pipeline is a deterministic function of its inputs, the
oracle and the numerics: two sequential runs on identical arguments
return identical results. -/
theorem c9_pipeline_deterministic (orc : Oracle) (nm : Numerics) (cfg : Config)
    (fuel : ℕ) :
    (runShockTubeTwice orc nm cfg fuel).1 = (runShockTubeTwice orc nm cfg fuel).2 :=
  rfl

/-- Claim C10: on every normal exit of the expansion march the last
expansion particle velocity has reached the target (the shock family's
last particle velocity), and whenever the initial driver velocity is
strictly below the target the march has executed at least once, so the
curve holds at least two FlowPoints. -/
theorem c10_march_exit_postcondition (orc : Oracle) (e : Bool) (S : ℚ)
    (q : Comp) (uT : ℚ) (fuel : ℕ) (init : FlowPoint) (l : List FlowPoint)
    (h : expansionMarch orc e S q uT fuel init = some l) :
    (∃ p, l.getLast? = some p ∧ uT ≤ p.u) ∧ (init.u < uT → 2 ≤ l.length) := by
  obtain ⟨t, ht, rfl⟩ := Option.map_eq_some'.mp h
  refine ⟨marchTail_exit orc e S q uT fuel _ init t ht, fun hlt => ?_⟩
  have hne := marchTail_progress orc e S q uT fuel _ init t ht hlt
  cases t with
  | nil => exact absurd rfl hne
  | cons x xs => simp

/-- Witness for C10: a concrete one-step march that exits with the last
velocity above the target and two points on the curve. -/
theorem c10_march_exit_postcondition_witness :
    (∃ p, ([jumpInit, ⟨2, 0, 1, 1, 1⟩] : List FlowPoint).getLast? = some p ∧
        (1 : ℚ) ≤ p.u) ∧
    (jumpInit.u < 1 → 2 ≤ ([jumpInit, ⟨2, 0, 1, 1, 1⟩] : List FlowPoint).length) :=
  c10_march_exit_postcondition jumpOracle false 1 0 1 3 jumpInit
    [jumpInit, ⟨2, 0, 1, 1, 1⟩]
    (by norm_num [expansionMarch, marchTail, expansionStep, svGas, svSound,
      jumpOracle, constOracle, jumpGas, jumpInit])

end ShockTube
